import Mathlib

/-!
Verification development for the voice-cloning web API.

The repository contains two implementations of the voice-profile recording
service:

* `app/models/voice_profile_service.py` — a pydantic-model based variant
  (here: namespace `MVP`), keeping a `VoiceProfile` record with a list of
  `RecordingStep` entries;
* `app/services/voice_profile_service.py` — a `meta.json` based variant
  (here: namespace `SVP`), the one imported by `app/api/voice_profile_routes.py`
  and `app/main.py`.

The TTS engine (`app/services/tts_engine.py`) and the voice-cloning
orchestrator (`app/services/voice_cloning_service.py`) are embedded in the
namespaces `TTSE` and `VCS`.  File-system and audio-backend effects are
modelled by explicit parameters (for example, a Boolean saying whether a file
exists, or the outcome of a registration call); everything else follows the
Python control flow line by line.
-/

namespace MVP

/-- Status of a voice profile (`VoiceProfileStatus` in
`app/models/voice_profiles.py`). -/
inductive Status where
  | recording
  | processing
  | ready
  | failed
deriving DecidableEq, Repr

/-- Voice quality tiers (`VoiceQuality` in `app/models/voice_profiles.py`). -/
inductive VQuality where
  | excellent
  | good
  | fair
  | poor
deriving DecidableEq, Repr

/-- One recording step (`RecordingStep` in `app/models/voice_profiles.py`).
`duration` and `quality_score` are `None` until the step is submitted. -/
structure RecordingStep where
  step_number : ℕ
  text_prompt : String
  audio_file_id : Option String := none
  duration : Option ℚ := none
  quality_score : Option ℚ := none
  completed : Bool := false
  recording_url : Option String := none
deriving DecidableEq, Repr, Inhabited

/-- The voice-profile record (`VoiceProfile` in
`app/models/voice_profiles.py`); only the fields the service logic reads or
writes are kept.  Timestamps are modelled as abstract tick counters. -/
structure VoiceProfile where
  profile_id : String
  user_id : String
  profile_name : String
  status : Status := Status.recording
  quality : Option VQuality := none
  recording_steps : List RecordingStep := []
  total_steps : ℕ := 10
  completed_steps : ℕ := 0
  voice_embedding : Option String := none
  sample_rate : ℕ := 22050
  total_duration : Option ℚ := none
  overall_quality_score : Option ℚ := none
  times_used : ℕ := 0
  last_used : Option ℕ := none
deriving DecidableEq, Repr

/-- The fixed prompt pool `VoiceProfileService.RECORDING_PROMPTS`
(`app/models/voice_profile_service.py`, lines 25-41): fifteen sentences. -/
def RECORDING_PROMPTS : List String :=
  [ "Hello, this is my voice. I'm recording this sample for voice cloning.",
    "The quick brown fox jumps over the lazy dog near the riverbank.",
    "I love using technology to create amazing experiences for everyone.",
    "My voice is unique and I want to preserve its natural characteristics.",
    "Weather forecast shows sunny skies with temperatures reaching seventy degrees.",
    "Please remember to speak clearly and maintain consistent volume levels.",
    "Artificial intelligence is transforming how we interact with computers.",
    "This voice cloning technology will help me communicate more effectively.",
    "I'm excited to see how accurately this system can replicate my voice.",
    "Thank you for helping me create a digital version of my voice.",
    "Numbers and dates: January first, two thousand twenty-four, at 3:45 PM.",
    "Reading this text helps the system learn my pronunciation patterns.",
    "My voice has its own rhythm, tone, and unique speaking characteristics.",
    "The system analyzes vocal patterns to create an accurate voice model.",
    "This is the final recording sample for my voice profile creation." ]

/-- `start_recording_session` (`app/models/voice_profile_service.py`,
lines 53-97): the prompt selection is `RECORDING_PROMPTS[:total_steps]`, a
plain prefix, and one step is appended per selected prompt, numbered from 1
with `completed = False`.  The `total_steps` field of the profile is set to
the requested count even when fewer prompts (hence steps) exist.
The uuid `profile_id` is passed in, as uuid generation is environmental. -/
def start_recording_session (profile_id user_id profile_name : String)
    (total_steps : ℕ) : VoiceProfile :=
  let selected := RECORDING_PROMPTS.take total_steps
  { profile_id := profile_id
    user_id := user_id
    profile_name := profile_name
    status := Status.recording
    total_steps := total_steps
    recording_steps := selected.enum.map fun p =>
      { step_number := p.1 + 1, text_prompt := p.2 } }

/-- Summary statistics of a decoded audio sample, as computed by numpy in
`_analyze_recording_quality`: `duration = len(audio)/sr`, `max_amplitude =
max |x|`, `silence_frac` is the source's `noise_ratio` (fraction of samples
with `|x| < 0.02`), `num_frames` the number of full 2048-sample frames the
RMS loop visits, and `rms_std` the standard deviation of the framewise RMS
values (a real-valued quantity, carried here as the input to the comparison
the code makes). -/
structure AudioStats where
  duration : ℚ
  max_amplitude : ℚ
  silence_frac : ℚ
  num_frames : ℕ
  rms_std : ℚ
deriving DecidableEq, Repr

/-- Result dictionary of `_analyze_recording_quality` (the fields the caller
reads). -/
structure AnalysisResult where
  duration : ℚ
  quality_score : ℚ
  suitable : Bool
deriving DecidableEq, Repr

/-- `_analyze_recording_quality` (`app/models/voice_profile_service.py`,
lines 185-237), scoring path: the score starts at 100 and is reduced by the
fixed penalties, in the order of the source; `suitable` is the returned
`quality_score >= 60` flag. -/
def analyze_recording_quality (st : AudioStats) : AnalysisResult :=
  let s0 : ℚ := 100
  let s1 := if st.duration < 2 then s0 - 20
            else if 15 < st.duration then s0 - 10 else s0
  let s2 := if st.max_amplitude < 1/10 then s1 - 25
            else if 95/100 < st.max_amplitude then s1 - 15 else s1
  let s3 := if 3/10 < st.silence_frac then s2 - 20 else s2
  let s4 := if 0 < st.num_frames ∧ 1/10 < st.rms_std then s3 - 10 else s3
  let score := max 0 s4
  { duration := st.duration
    quality_score := score
    suitable := decide (60 ≤ score) }

/-- Quality tier mapping in `_finalize_voice_profile`
(lines 261-268): at least 90 excellent, at least 75 good, at least 60 fair,
otherwise poor. -/
def qualityTier (score : ℚ) : VQuality :=
  if 90 ≤ score then VQuality.excellent
  else if 75 ≤ score then VQuality.good
  else if 60 ≤ score then VQuality.fair
  else VQuality.poor

/-- `_finalize_voice_profile` (`app/models/voice_profile_service.py`,
lines 248-281).  The status is first set to `processing`; metrics are
computed over the completed steps; `_create_voice_embedding` either succeeds
(`embedOk = true`, writing `voice_embedding` when there are completed
recordings) or raises, in which case the `except` branch sets the status to
`failed`.  On success the status becomes `ready`. -/
def finalize (p : VoiceProfile) (embedOk : Bool) : VoiceProfile :=
  let p1 := { p with status := Status.processing }
  let done : List RecordingStep := p1.recording_steps.filter (fun s => s.completed)
  let p2 :=
    if done.length ≠ 0 then
      let score := (done.map (fun s => s.quality_score.getD 0)).sum / (done.length : ℚ)
      { p1 with
        overall_quality_score := some score
        total_duration := some (done.map (fun s => s.duration.getD 0)).sum
        quality := some (qualityTier score) }
    else p1
  if embedOk then
    { p2 with
      voice_embedding := if done.length ≠ 0 then
          some (p2.profile_id ++ "/voice_embedding.wav")
        else p2.voice_embedding
      status := Status.ready }
  else { p2 with status := Status.failed }

/-- Errors `submit_recording_step` raises before touching the profile. -/
inductive SubmitErr where
  | profileNotFound
  | invalidStepNumber
deriving DecidableEq, Repr

/-- `VoiceRecordingSessionResponse` fields the submit path fills in. -/
structure SessionResponse where
  success : Bool
  current_step : ℕ
  total_steps : ℕ
  next_prompt : Option String
  progress_percentage : ℚ
deriving DecidableEq, Repr

/-- `submit_recording_step` (`app/models/voice_profile_service.py`,
lines 99-176).  The first component of the result is the stored profile
(unchanged when a validation error is raised, since the raise happens before
any mutation).  The only validation on the step number is the range check of
lines 111-116 (`step_number < 1 or step_number > len(recording_steps)`); the
quality-analysis result is recorded on the step but its `suitable` flag is
never consulted.  `analysis` is the outcome of `_analyze_recording_quality`
on the uploaded audio, `embedOk` the outcome of `_create_voice_embedding`
should finalization run. -/
def submit_recording_step (p : VoiceProfile) (user_id : String)
    (step_number : ℕ) (audio_file_id : String) (analysis : AnalysisResult)
    (embedOk : Bool) : VoiceProfile × Except SubmitErr SessionResponse :=
  if p.user_id ≠ user_id then
    (p, Except.error SubmitErr.profileNotFound)
  else if step_number < 1 ∨ p.recording_steps.length < step_number then
    (p, Except.error SubmitErr.invalidStepNumber)
  else
    let idx := step_number - 1
    let step0 := p.recording_steps.getD idx default
    let step1 := { step0 with
      audio_file_id := some audio_file_id
      duration := some analysis.duration
      quality_score := some analysis.quality_score
      completed := true
      recording_url := some (p.profile_id ++ "/step_" ++ toString step_number ++ ".wav") }
    let steps := p.recording_steps.set idx step1
    let completed := (steps.filter (·.completed)).length
    let p1 := { p with recording_steps := steps, completed_steps := completed }
    let progress : ℚ := (completed : ℚ) / (p1.total_steps : ℚ) * 100
    let p2 := if p1.total_steps ≤ completed then finalize p1 embedOk else p1
    let next_prompt :=
      if p1.total_steps ≤ completed then none
      else some ((p2.recording_steps.getD completed default).text_prompt)
    (p2, Except.ok
      { success := true
        current_step := p2.completed_steps + 1
        total_steps := p2.total_steps
        next_prompt := next_prompt
        progress_percentage := progress })

/-- Errors of `use_voice_profile` (all are `ValidationException`s in the
source, distinguished here by which check fired). -/
inductive UseErr where
  | notFoundOrDenied
  | notReady
  | embeddingMissing
deriving DecidableEq, Repr

/-- The read-only usage descriptor `use_voice_profile` returns. -/
structure UsageDescriptor where
  voice_embedding_path : String
  quality : Option VQuality
  sample_rate : ℕ
deriving DecidableEq, Repr

/-- `use_voice_profile` (`app/models/voice_profile_service.py`,
lines 343-395).  `embeddingOnDisk` models `os.path.exists` on the stored
embedding path; `now` is the clock tick recorded into `last_used`.  On
success the stored profile has `times_used` bumped by one; on any error the
raise happens before the usage-statistics update, so nothing is saved. -/
def use_voice_profile (profileOpt : Option VoiceProfile) (user_id : String)
    (embeddingOnDisk : Bool) (now : ℕ) :
    Except UseErr (VoiceProfile × UsageDescriptor) :=
  match profileOpt with
  | none => Except.error UseErr.notFoundOrDenied
  | some p =>
    if p.user_id ≠ user_id then Except.error UseErr.notFoundOrDenied
    else if p.status ≠ Status.ready then Except.error UseErr.notReady
    else
      match p.voice_embedding with
      | none => Except.error UseErr.embeddingMissing
      | some path =>
        if ¬embeddingOnDisk then Except.error UseErr.embeddingMissing
        else
          Except.ok ({ p with times_used := p.times_used + 1, last_used := some now },
            { voice_embedding_path := path
              quality := p.quality
              sample_rate := p.sample_rate })

end MVP

namespace SVP

/-- The prompt pool `PROMPTS` of `app/services/voice_profile_service.py`
(lines 55-60): four sentences. -/
def PROMPTS : List String :=
  [ "Please say: The quick brown fox jumps over the lazy dog.",
    "Please say: How razorback-jumping frogs can level six piqued gymnasts.",
    "Please say: She sells seashells by the seashore.",
    "Please say: Today is a nice day for a walk in the park." ]

/-- Prompt selection of `start_recording_session`
(`app/services/voice_profile_service.py`, line 149):
`PROMPTS[:total_steps]` when the pool is large enough, otherwise the pool is
repeated `total_steps // len(PROMPTS) + 1` times and truncated to
`total_steps` entries (cycling). -/
def selectPrompts (total_steps : ℕ) : List String :=
  if total_steps ≤ PROMPTS.length then PROMPTS.take total_steps
  else ((List.replicate (total_steps / max 1 PROMPTS.length + 1) PROMPTS).flatten).take total_steps

/-- The `meta.json` record kept per profile by
`app/services/voice_profile_service.py`.  `status` and `quality` are the
plain strings the source stores. -/
structure Meta where
  profile_id : String
  profile_name : String
  owner : String
  total_steps : ℕ
  current_step : ℕ
  status : String
  prompts : List String
  quality : String
  times_used : ℕ
deriving DecidableEq, Repr

/-- `start_recording_session` (`app/services/voice_profile_service.py`,
lines 131-191): an empty (stripped) profile name is rejected; a requested
step count of zero falls back to 3 (the source coerces any value `<= 0` to
3); the meta record starts at `current_step = 1` in status `recording`. -/
def start_recording_session (profile_id user_id profile_name : String)
    (total_steps_req : ℕ) : Except Unit Meta :=
  if profile_name.trim = "" then Except.error ()
  else
    let total_steps := if total_steps_req = 0 then 3 else total_steps_req
    Except.ok
      { profile_id := profile_id
        profile_name := profile_name
        owner := user_id
        total_steps := total_steps
        current_step := 1
        status := "recording"
        prompts := selectPrompts total_steps
        quality := "processing"
        times_used := 0 }

/-- The `ValidationException`s `submit_recording_step` raises, by the check
that fired (`error_code` in the source: `FILE_NOT_FOUND`, `INVALID_INPUT`,
`FILE_NOT_FOUND`, `AUDIO_QUALITY_POOR`). -/
inductive SubmitErr where
  | accessDenied
  | unexpectedStep
  | audioFileMissing
  | audioQualityPoor
deriving DecidableEq, Repr

/-- The response payload fields `submit_recording_step` computes. -/
structure StepResp where
  success : Bool
  current_step : ℕ
  total_steps : ℕ
  progress_percentage : ℚ
  next_prompt : Option String
deriving DecidableEq, Repr

/-- `submit_recording_step` (`app/services/voice_profile_service.py`,
lines 193-273).  The first component is the persisted meta record: every
`ValidationException` is raised before `_save_meta`, so on an error it is
the input unchanged.  `tempExists` models `os.path.exists` on the uploaded
temp file and `valid` the `audio_processor.validate_audio` gate.  A step
number different from `current_step` is rejected (line 209-210); on the
final step the status becomes `ready` and `current_step` is clamped back to
`total_steps`. -/
def submit_recording_step (m : Meta) (user_id : String) (step_number : ℕ)
    (tempExists valid : Bool) : Meta × Except SubmitErr StepResp :=
  if m.owner ≠ user_id then (m, Except.error SubmitErr.accessDenied)
  else if step_number ≠ m.current_step then (m, Except.error SubmitErr.unexpectedStep)
  else if ¬tempExists then (m, Except.error SubmitErr.audioFileMissing)
  else if ¬valid then (m, Except.error SubmitErr.audioQualityPoor)
  else
    let m1 := { m with current_step := m.current_step + 1 }
    let m2 := if m.total_steps < m1.current_step then
        { m1 with status := "ready", current_step := m1.total_steps, quality := "ready" }
      else m1
    let progress : ℚ := ((m2.current_step : ℚ) - 1) / (m2.total_steps : ℚ) * 100
    let next_prompt :=
      if m2.status ≠ "ready" ∧ m2.current_step ≤ m2.total_steps then
        m2.prompts.get? (m2.current_step - 1)
      else none
    (m2, Except.ok
      { success := true
        current_step := m2.current_step
        total_steps := m2.total_steps
        progress_percentage := progress
        next_prompt := next_prompt })

/-- Errors of `use_voice_profile` in the services variant. -/
inductive UseErr where
  | metaNotFound
  | accessDenied
  | notReady
  | referenceMissing
deriving DecidableEq, Repr

/-- `use_voice_profile` (`app/services/voice_profile_service.py`,
lines 323-371): requires the meta record to exist, the caller to own it and
the status to be exactly `ready`; `candidate` is the reference wav path the
candidate search finds on disk (`none` when no wav file exists, which raises
`FILE_NOT_FOUND`).  On success `times_used` is bumped by one and the updated
meta is saved. -/
def use_voice_profile (metaOpt : Option Meta) (user_id : String)
    (candidate : Option String) : Except UseErr (Meta × String) :=
  match metaOpt with
  | none => Except.error UseErr.metaNotFound
  | some m =>
    if m.owner ≠ user_id then Except.error UseErr.accessDenied
    else if m.status ≠ "ready" then Except.error UseErr.notReady
    else
      match candidate with
      | none => Except.error UseErr.referenceMissing
      | some path =>
        Except.ok ({ m with times_used := m.times_used + 1 }, path)

end SVP

namespace TTSE

/-- What `synthesize` decides to do after its speaker-selection policy
(`app/services/tts_engine.py`, lines 546-594): either it proceeds to
`_invoke_tts_to_file` with the chosen speaker (possibly `none` on the
explicitly-enabled fallback path), or it raises the descriptive
`AudioProcessingError` saying the model is multi-speaker and no speaker was
provided, without ever calling `_invoke_tts_to_file`. -/
inductive SynthAction where
  | invoke (speaker : Option String)
  | failNoSpeaker
deriving DecidableEq, Repr

/-- Speaker-selection policy of `synthesize` (`app/services/tts_engine.py`,
lines 546-594).  `speaker` is the caller-supplied speaker, `cfgDefault` the
configured `settings.tts_default_speaker_id`, `speakerKeys` the keys of the
backend identity registry `speaker_manager.speakers` (empty when the
registry is absent or empty), and `allowFallback` the
`settings.tts_allow_fallback_without_speaker` flag. -/
def synthesizeSpeakerPolicy (speaker cfgDefault : Option String)
    (speakerKeys : List String) (allowFallback : Bool) : SynthAction :=
  let chosen := speaker
  let chosen := match chosen with
    | none => cfgDefault
    | some s => some s
  let chosen := match chosen, speakerKeys with
    | none, k :: _ => some k
    | c, _ => c
  match chosen, speakerKeys with
  | none, [] =>
    if allowFallback then SynthAction.invoke none else SynthAction.failNoSpeaker
  | c, _ => SynthAction.invoke c

/-- Outcome of one safe-load attempt in `_initialize_sync`
(`app/services/tts_engine.py`, lines 300-364): the `TTS(...)` construction
under the `safe_globals` allowlist either succeeds, or raises an error from
whose text `_parse_unsupported_globals` recovers some class names, of which
`newImportable` are dynamically importable and new to the allowlist.  When
`newImportable = 0` (nothing parsed, or nothing importable) the retry loop
breaks. -/
inductive SafeAttempt where
  | success
  | failThen (newImportable : ℕ)
deriving DecidableEq, Repr

/-- Trace of the safe-load retry loop: whether some attempt succeeded, how
many attempts ran, the backoff slept before each retry (seconds), and the
allowlist size at the start of each attempt. -/
structure SafeTrace where
  succeeded : Bool
  attempts : ℕ
  backoffs : List ℚ
  sizes : List ℕ
deriving DecidableEq, Repr

/-- The safe-load retry loop of `_initialize_sync` (lines 300-364), started
at attempt index `idx` with `allow` classes on the allowlist and `fuel`
attempts remaining (`max_attempts = 6` at the top-level call).  A failed
attempt that contributed new allowlist classes sleeps
`base_backoff * 2 ** (attempt - 1)` seconds (base 1.0; `idx` is the
zero-based attempt number) and retries; otherwise the loop breaks. -/
def safeLoadFrom (outcomes : ℕ → SafeAttempt) (allow idx fuel : ℕ) : SafeTrace :=
  match fuel with
  | 0 => { succeeded := false, attempts := 0, backoffs := [], sizes := [] }
  | fuel' + 1 =>
    match outcomes idx with
    | SafeAttempt.success =>
      { succeeded := true, attempts := 1, backoffs := [], sizes := [allow] }
    | SafeAttempt.failThen n =>
      if n = 0 then
        { succeeded := false, attempts := 1, backoffs := [], sizes := [allow] }
      else
        let rest := safeLoadFrom outcomes (allow + n) (idx + 1) fuel'
        { succeeded := rest.succeeded
          attempts := rest.attempts + 1
          backoffs := ((2 : ℚ) ^ idx) :: rest.backoffs
          sizes := allow :: rest.sizes }

/-- The global `torch.load` binding: either the original function or the
monkey-patched wrapper `_torch_load_force_no_weights_only` that forces
`weights_only=False`. -/
inductive TorchLoad where
  | original
  | forcedFull
deriving DecidableEq, Repr

/-- How `_initialize_sync` returns: model loaded through the safe-globals
allowlist, `ModelLoadError` raised because checkpoint trust is disabled,
model loaded through the trusted `weights_only=False` fallback, or the
fallback construction raised and the exception propagated. -/
inductive InitOutcome where
  | loadedSafe
  | trustDisabledError
  | loadedFallback
  | fallbackRaised
deriving DecidableEq, Repr

/-- Observable result of `_initialize_sync`: the outcome, the safe-load
trace, whether the `weights_only=False` fallback was attempted at all, the
`torch.load` binding the fallback construction ran under (if it ran), and
the `torch.load` binding after `_initialize_sync` returned or raised. -/
structure InitResult where
  outcome : InitOutcome
  safeAttempts : ℕ
  backoffs : List ℚ
  sizes : List ℕ
  fallbackAttempted : Bool
  torchDuringFallback : Option TorchLoad
  finalTorchLoad : TorchLoad
deriving DecidableEq, Repr

/-- `_initialize_sync` (`app/services/tts_engine.py`, lines 282-423).
`safeCtxAvailable` says whether `safe_globals`/`add_safe_globals` exists in
the runtime (lines 295, 365-366); `trust` is `self.trust_checkpoint`;
`outcomes` gives each safe-load attempt's result; `initAllow` is the size of
the precomputed `_initial_safe_classes` allowlist; `fallbackOk` says whether
the fallback `TTS(...)` construction under the patched `torch.load`
succeeds.  The fallback section saves `orig_torch_load`, rebinds
`torch.load` to the forcing wrapper for the construction, and restores the
original binding in a `finally` block on both the success and the exception
path (lines 382-423). -/
def initialize_sync (safeCtxAvailable trust : Bool) (outcomes : ℕ → SafeAttempt)
    (initAllow : ℕ) (fallbackOk : Bool) : InitResult :=
  let trace := if safeCtxAvailable then safeLoadFrom outcomes initAllow 0 6
    else { succeeded := false, attempts := 0, backoffs := [], sizes := [] }
  if trace.succeeded then
    { outcome := InitOutcome.loadedSafe
      safeAttempts := trace.attempts
      backoffs := trace.backoffs
      sizes := trace.sizes
      fallbackAttempted := false
      torchDuringFallback := none
      finalTorchLoad := TorchLoad.original }
  else if ¬trust then
    { outcome := InitOutcome.trustDisabledError
      safeAttempts := trace.attempts
      backoffs := trace.backoffs
      sizes := trace.sizes
      fallbackAttempted := false
      torchDuringFallback := none
      finalTorchLoad := TorchLoad.original }
  else
    { outcome := if fallbackOk then InitOutcome.loadedFallback
        else InitOutcome.fallbackRaised
      safeAttempts := trace.attempts
      backoffs := trace.backoffs
      sizes := trace.sizes
      fallbackAttempted := true
      torchDuringFallback := some TorchLoad.forcedFull
      finalTorchLoad := TorchLoad.original }

end TTSE

namespace VCS

/-- Engine-level candidate capability names probed by
`_try_register_speaker` (`app/services/voice_cloning_service.py`,
lines 64-69), in order. -/
def register_fns : List String :=
  ["register_speaker_from_wav", "create_speaker_from_wav",
   "add_speaker_from_wav", "add_speaker"]

/-- Speaker-manager candidate capability names probed next (lines 98-103),
in order. -/
def manager_fn_names : List String :=
  ["create_speaker_from_wav", "add_speaker_from_wav",
   "add_speaker", "create_speaker"]

/-- What one engine-level registration attempt does: the name is not an
attribute of the engine (`getattr` is falsy, the loop moves on), the call
raises (caught by the `except` of lines 83-84, the loop moves on), or the
call completes returning `r` — which the source returns to its caller
immediately, even when `r` is `None` (line 82). -/
inductive EngineAttempt where
  | absent
  | throws
  | completes (r : Option String)
deriving DecidableEq, Repr

/-- What one speaker-manager attempt (`_call_manager`, lines 105-129) does:
the name is absent, the call raises (caught inside `_call_manager`), the
call returns a string, a tuple or list, or `None`-like (in which case the
most recent key of `speaker_manager.speakers` is used as a heuristic
fallback). -/
inductive ManagerAttempt where
  | absent
  | throws
  | retStr (s : String)
  | retSeq (l : List String)
  | retNoneLike
deriving DecidableEq, Repr

/-- The duck-typed surface of the TTS backend that
`_try_register_speaker` probes: the outcome of calling each engine-level
candidate name, whether `tts_engine._model` is accessible, whether a
`speaker_manager` is found on it, the outcome of each manager candidate
name, and the `speakers` registry (`none` when absent or not a dict,
otherwise its key list in insertion order). -/
structure Backend where
  engineAttempt : String → EngineAttempt
  hasModel : Bool
  hasManager : Bool
  managerAttempt : String → ManagerAttempt
  registryKeys : Option (List String)

/-- The heuristic fallback of `_call_manager` (lines 117-126): the most
recently registered key of `speaker_manager.speakers`, if the registry is a
non-empty dict. -/
def registryLast (b : Backend) : Option String :=
  match b.registryKeys with
  | none => none
  | some keys => keys.getLast?

/-- `_call_manager` (lines 105-129): normalize one manager attempt's result
to an optional speaker id.  A raised exception is caught and yields `none`;
an empty tuple or list is falsy in the source, so it also falls through to
the registry heuristic. -/
def callManager (b : Backend) (a : ManagerAttempt) : Option String :=
  match a with
  | ManagerAttempt.absent => none
  | ManagerAttempt.throws => none
  | ManagerAttempt.retStr s => some s
  | ManagerAttempt.retSeq [] => registryLast b
  | ManagerAttempt.retSeq (s :: _) => some s
  | ManagerAttempt.retNoneLike => registryLast b

/-- The engine-level probing loop (lines 72-84): the first candidate name
that is present and whose call completes makes `_try_register_speaker`
return that call's result unconditionally — even `None`; names that are
absent or whose call raises are skipped.  The outer `none` means every name
was absent or threw and the loop fell through. -/
def tryEngineLoop (b : Backend) : List String → Option (Option String)
  | [] => none
  | name :: rest =>
    match b.engineAttempt name with
    | EngineAttempt.absent => tryEngineLoop b rest
    | EngineAttempt.throws => tryEngineLoop b rest
    | EngineAttempt.completes r => some r

/-- The manager probing loop (lines 131-136): the loop keeps the first
attempt whose normalized id is truthy (a non-empty string); `none` and the
empty string are falsy in the source's `if speaker_id:` and the loop moves
on. -/
def tryManagerLoop (b : Backend) : List String → Option String
  | [] => none
  | name :: rest =>
    match callManager b (b.managerAttempt name) with
    | none => tryManagerLoop b rest
    | some s => if s = "" then tryManagerLoop b rest else some s

/-- `_try_register_speaker` (`app/services/voice_cloning_service.py`,
lines 45-139).  `refExists` models `os.path.exists(reference_path)`.  Every
individual attempt's exception is caught inside the function (lines 83-84
and 127-129), so the function is total and returns `none` when no strategy
yields an identity. -/
def try_register_speaker (refExists : Bool) (b : Backend) : Option String :=
  if ¬refExists then none
  else
    match tryEngineLoop b register_fns with
    | some r => r
    | none =>
      if ¬b.hasModel then none
      else if ¬b.hasManager then none
      else tryManagerLoop b manager_fn_names

/-- An engine-level attempt failed to produce an identity: the capability
was absent, the call threw, or it completed returning `None`. -/
def EngineAttempt.failed : EngineAttempt → Prop
  | EngineAttempt.absent => True
  | EngineAttempt.throws => True
  | EngineAttempt.completes r => r = none

instance : DecidablePred EngineAttempt.failed := fun a =>
  match a with
  | EngineAttempt.absent => Decidable.isTrue trivial
  | EngineAttempt.throws => Decidable.isTrue trivial
  | EngineAttempt.completes r => inferInstanceAs (Decidable (r = none))

/-- A manager-level attempt failed to produce a usable identity: its
normalized result is `None` or the falsy empty string. -/
def managerFailed (b : Backend) (a : ManagerAttempt) : Prop :=
  callManager b a = none ∨ callManager b a = some ""

instance (b : Backend) : DecidablePred (managerFailed b) := fun _ =>
  inferInstanceAs (Decidable (_ ∨ _))

end VCS

/-- C8: for every evaluated audio sample, the quality score returned by
`_analyze_recording_quality` equals 100 minus the fixed penalties — 20 if
duration is below 2 s, 10 if above 15 s, 25 if the peak amplitude is below
0.1, 15 if above 0.95, 20 if the fraction of near-silent samples exceeds
0.3, and 10 if frames exist and the standard deviation of the framewise RMS
exceeds 0.1 — floored at 0; and the sample is `suitable` exactly when the
resulting score is at least 60. -/
theorem analyze_recording_quality_score_formula (st : MVP.AudioStats) :
    (MVP.analyze_recording_quality st).quality_score =
      max 0 ((100 : ℚ)
        - (if st.duration < 2 then 20 else 0)
        - (if 15 < st.duration then 10 else 0)
        - (if st.max_amplitude < 1/10 then 25 else 0)
        - (if 95/100 < st.max_amplitude then 15 else 0)
        - (if 3/10 < st.silence_frac then 20 else 0)
        - (if 0 < st.num_frames ∧ 1/10 < st.rms_std then 10 else 0))
    ∧ ((MVP.analyze_recording_quality st).suitable = true ↔
        60 ≤ (MVP.analyze_recording_quality st).quality_score) := by
  unfold MVP.analyze_recording_quality
  refine ⟨?_, ?_⟩
  · dsimp only
    split_ifs <;> norm_num <;> linarith
  · dsimp only
    simp [decide_eq_true_eq]

/-- C5: when `synthesize` is called with no explicit speaker, no configured
default speaker id, an empty backend identity registry, and the
fallback-without-speaker flag disabled, its speaker-selection policy raises
the descriptive multi-speaker error and never reaches
`_invoke_tts_to_file`. -/
theorem synthesize_requires_speaker_fails_fast :
    TTSE.synthesizeSpeakerPolicy none none [] false = TTSE.SynthAction.failNoSpeaker
    ∧ ∀ s : Option String,
        TTSE.synthesizeSpeakerPolicy none none [] false ≠ TTSE.SynthAction.invoke s := by
  refine ⟨rfl, ?_⟩
  intro s h
  simp [TTSE.synthesizeSpeakerPolicy] at h

/-- C10: whatever path `_initialize_sync` takes and however it ends, the
`torch.load` binding after it returns or raises is the original one — the
`finally` block of the trusted-fallback section restores it on both the
success and the exception path — while the fallback construction itself, if
attempted, runs under the forcing monkey-patch. -/
theorem initialize_sync_restores_torch_load (safeCtx trust : Bool)
    (outcomes : ℕ → TTSE.SafeAttempt) (initAllow : ℕ) (fallbackOk : Bool) :
    (TTSE.initialize_sync safeCtx trust outcomes initAllow fallbackOk).finalTorchLoad
        = TTSE.TorchLoad.original
    ∧ ((TTSE.initialize_sync safeCtx trust outcomes initAllow fallbackOk).fallbackAttempted = true →
        (TTSE.initialize_sync safeCtx trust outcomes initAllow fallbackOk).torchDuringFallback
          = some TTSE.TorchLoad.forcedFull)
    ∧ ((TTSE.initialize_sync safeCtx trust outcomes initAllow fallbackOk).fallbackAttempted = false →
        (TTSE.initialize_sync safeCtx trust outcomes initAllow fallbackOk).torchDuringFallback = none) := by
  unfold TTSE.initialize_sync
  by_cases hsucc : (TTSE.safeLoadFrom outcomes initAllow 0 6).succeeded = true <;>
    split_ifs <;> simp [hsucc]

/-- Witness for C10: with safe loading unavailable and a trusted checkpoint,
the fallback runs under the patched binding and the binding is restored. -/
theorem initialize_sync_restores_torch_load_witness :
    (TTSE.initialize_sync false true (fun _ => TTSE.SafeAttempt.success) 3 true).finalTorchLoad
        = TTSE.TorchLoad.original
    ∧ (TTSE.initialize_sync false true (fun _ => TTSE.SafeAttempt.success) 3 true).torchDuringFallback
        = some TTSE.TorchLoad.forcedFull :=
  ⟨(initialize_sync_restores_torch_load false true (fun _ => TTSE.SafeAttempt.success) 3 true).1,
   (initialize_sync_restores_torch_load false true (fun _ => TTSE.SafeAttempt.success) 3 true).2.1 (by rfl)⟩

/-- An engine-level probing loop over names that all fail either falls
through (`none`) or early-returns the `None` an attempt completed with. -/
lemma tryEngineLoop_failed (b : VCS.Backend) (l : List String)
    (h : ∀ n ∈ l, (b.engineAttempt n).failed) :
    VCS.tryEngineLoop b l = none ∨ VCS.tryEngineLoop b l = some none := by
  induction l with
  | nil => exact Or.inl rfl
  | cons n rest ih =>
    have hn := h n (List.mem_cons_self n rest)
    have hrest := fun m hm => h m (List.mem_cons_of_mem n hm)
    cases hatt : b.engineAttempt n with
    | absent => simpa [VCS.tryEngineLoop, hatt] using ih hrest
    | throws => simpa [VCS.tryEngineLoop, hatt] using ih hrest
    | completes r =>
      right
      rw [hatt] at hn
      simp only [VCS.EngineAttempt.failed] at hn
      simp [VCS.tryEngineLoop, hatt, hn]

/-- A manager probing loop over names that all fail yields no identity. -/
lemma tryManagerLoop_failed (b : VCS.Backend) (l : List String)
    (h : ∀ n ∈ l, VCS.managerFailed b (b.managerAttempt n)) :
    VCS.tryManagerLoop b l = none := by
  induction l with
  | nil => rfl
  | cons n rest ih =>
    have hn := h n (List.mem_cons_self n rest)
    have hrest := fun m hm => h m (List.mem_cons_of_mem n hm)
    rcases hn with hnone | hempty
    · simp [VCS.tryManagerLoop, hnone, ih hrest]
    · simp [VCS.tryManagerLoop, hempty, ih hrest]

/-- C6: for every reference audio path, when every registration strategy —
each candidate capability name probed on the backend itself and then each
candidate name probed on its speaker-manager sub-component — fails or
throws, `_try_register_speaker` returns `None`; it never propagates an
attempt's exception (every attempt outcome, including `throws`, is consumed
by the total resolution function). -/
theorem try_register_speaker_all_fail_none (refExists : Bool) (b : VCS.Backend)
    (heng : ∀ n ∈ VCS.register_fns, (b.engineAttempt n).failed)
    (hman : ∀ n ∈ VCS.manager_fn_names, VCS.managerFailed b (b.managerAttempt n)) :
    VCS.try_register_speaker refExists b = none := by
  unfold VCS.try_register_speaker
  rcases tryEngineLoop_failed b VCS.register_fns heng with hcase | hcase <;>
    rw [hcase] <;> cases b.hasModel <;> cases b.hasManager <;>
      simp [tryManagerLoop_failed b VCS.manager_fn_names hman]

/-- Witness for C6: a backend on which every engine-level and every
manager-level registration call raises resolves to `None`. -/
theorem try_register_speaker_all_fail_none_witness :
    VCS.try_register_speaker true
      { engineAttempt := fun _ => VCS.EngineAttempt.throws
        hasModel := true
        hasManager := true
        managerAttempt := fun _ => VCS.ManagerAttempt.throws
        registryKeys := some [] } = none :=
  try_register_speaker_all_fail_none true _ (by decide)
    (by intro n hn; exact Or.inl rfl)

/-- The safe-load retry loop runs at most `fuel` attempts. -/
lemma safeLoadFrom_attempts_le (outcomes : ℕ → TTSE.SafeAttempt) :
    ∀ fuel idx allow, (TTSE.safeLoadFrom outcomes allow idx fuel).attempts ≤ fuel := by
  intro fuel
  induction fuel with
  | zero => intro idx allow; simp [TTSE.safeLoadFrom]
  | succ f ih =>
    intro idx allow
    cases h : outcomes idx with
    | success => simp [TTSE.safeLoadFrom, h]
    | failThen n =>
      by_cases hn : n = 0
      · simp [TTSE.safeLoadFrom, h, hn]
      · simpa [TTSE.safeLoadFrom, h, hn] using Nat.succ_le_succ (ih (idx + 1) (allow + n))

/-- The backoffs slept by the retry loop started at attempt index `idx` are
consecutive powers of two: `2 ^ idx, 2 ^ (idx + 1), …`. -/
lemma safeLoadFrom_backoffs (outcomes : ℕ → TTSE.SafeAttempt) :
    ∀ fuel idx allow, ∃ k,
      (TTSE.safeLoadFrom outcomes allow idx fuel).backoffs
        = (List.range k).map (fun j => (2 : ℚ) ^ (idx + j)) := by
  intro fuel
  induction fuel with
  | zero => intro idx allow; exact ⟨0, by simp [TTSE.safeLoadFrom]⟩
  | succ f ih =>
    intro idx allow
    cases h : outcomes idx with
    | success => exact ⟨0, by simp [TTSE.safeLoadFrom, h]⟩
    | failThen n =>
      by_cases hn : n = 0
      · exact ⟨0, by simp [TTSE.safeLoadFrom, h, hn]⟩
      · obtain ⟨k, hk⟩ := ih (idx + 1) (allow + n)
        refine ⟨k + 1, ?_⟩
        simp only [TTSE.safeLoadFrom, h]
        rw [if_neg hn]
        simp only [List.range_succ_eq_map, List.map_cons, List.map_map]
        rw [hk]
        simp only [List.cons.injEq]
        refine ⟨by simp, ?_⟩
        apply List.map_congr_left
        intro a ha
        simp only [Function.comp_apply, Nat.succ_eq_add_one]
        congr 1
        omega

/-- If no attempt succeeds, the retry loop reports failure. -/
lemma safeLoadFrom_not_success (outcomes : ℕ → TTSE.SafeAttempt)
    (hfail : ∀ i, outcomes i ≠ TTSE.SafeAttempt.success) :
    ∀ fuel idx allow, (TTSE.safeLoadFrom outcomes allow idx fuel).succeeded = false := by
  intro fuel
  induction fuel with
  | zero => intro idx allow; simp [TTSE.safeLoadFrom]
  | succ f ih =>
    intro idx allow
    cases h : outcomes idx with
    | success => exact absurd h (hfail idx)
    | failThen n =>
      by_cases hn : n = 0
      · simp [TTSE.safeLoadFrom, h, hn]
      · simpa [TTSE.safeLoadFrom, h, hn] using ih (idx + 1) (allow + n)

/-- The allowlist size recorded at the start of each attempt grows strictly
between consecutive attempts: a retry only happens when new classes were
imported into the allowlist. -/
lemma safeLoadFrom_sizes_chain (outcomes : ℕ → TTSE.SafeAttempt) :
    ∀ fuel idx allow,
      List.Chain' (· < ·) (TTSE.safeLoadFrom outcomes allow idx fuel).sizes
      ∧ ∀ x ∈ (TTSE.safeLoadFrom outcomes allow idx fuel).sizes, allow ≤ x := by
  intro fuel
  induction fuel with
  | zero => intro idx allow; simp [TTSE.safeLoadFrom]
  | succ f ih =>
    intro idx allow
    cases h : outcomes idx with
    | success => simp [TTSE.safeLoadFrom, h]
    | failThen n =>
      by_cases hn : n = 0
      · simp [TTSE.safeLoadFrom, h, hn]
      · have hrest := ih (idx + 1) (allow + n)
        have hpos : 0 < n := Nat.pos_of_ne_zero hn
        constructor
        · simp only [TTSE.safeLoadFrom, h]
          rw [if_neg hn]
          rw [List.chain'_cons']
          refine ⟨?_, hrest.1⟩
          intro b hb
          have hmem := List.mem_of_mem_head? hb
          have := hrest.2 b hmem
          omega
        · simp only [TTSE.safeLoadFrom, h]
          rw [if_neg hn]
          intro x hx
          rcases List.mem_cons.mp hx with hx | hx
          · omega
          · have := hrest.2 x hx
            omega

/-- C7: checkpoint loading performs at most 6 safe-load attempts, the
backoffs between them are the exponential sequence `1, 2, 4, …` seconds,
the trusted-class allowlist strictly grows between consecutive attempts,
and when no safe-load attempt succeeds while checkpoint trust is disabled,
`_initialize_sync` raises `ModelLoadError` without ever attempting the
`weights_only=False` full-unpickle fallback. -/
theorem initialize_sync_bounded_retries_no_fallback (safeCtx : Bool)
    (outcomes : ℕ → TTSE.SafeAttempt) (initAllow : ℕ) (fallbackOk : Bool)
    (hfail : ∀ i, outcomes i ≠ TTSE.SafeAttempt.success) :
    (TTSE.initialize_sync safeCtx false outcomes initAllow fallbackOk).safeAttempts ≤ 6
    ∧ (∃ k, (TTSE.initialize_sync safeCtx false outcomes initAllow fallbackOk).backoffs
        = (List.range k).map (fun j => (2 : ℚ) ^ j))
    ∧ List.Chain' (· < ·) (TTSE.initialize_sync safeCtx false outcomes initAllow fallbackOk).sizes
    ∧ (TTSE.initialize_sync safeCtx false outcomes initAllow fallbackOk).outcome
        = TTSE.InitOutcome.trustDisabledError
    ∧ (TTSE.initialize_sync safeCtx false outcomes initAllow fallbackOk).fallbackAttempted = false := by
  have hs := safeLoadFrom_not_success outcomes hfail 6 0 initAllow
  have hb := safeLoadFrom_backoffs outcomes 6 0 initAllow
  have hc := (safeLoadFrom_sizes_chain outcomes 6 0 initAllow).1
  have ha := safeLoadFrom_attempts_le outcomes 6 0 initAllow
  cases safeCtx
  · refine ⟨by simp [TTSE.initialize_sync], ⟨0, by simp [TTSE.initialize_sync]⟩,
      by simp [TTSE.initialize_sync], by simp [TTSE.initialize_sync],
      by simp [TTSE.initialize_sync]⟩
  · obtain ⟨k, hk⟩ := hb
    refine ⟨by simpa [TTSE.initialize_sync, hs] using ha, ⟨k, ?_⟩,
      by simpa [TTSE.initialize_sync, hs] using hc,
      by simp [TTSE.initialize_sync, hs],
      by simp [TTSE.initialize_sync, hs]⟩
    simpa [TTSE.initialize_sync, hs] using hk

/-- Witness for C7: with every attempt failing but contributing one new
allowlist class and trust disabled, initialization ends in `ModelLoadError`
after at most 6 attempts, the fallback untried. -/
theorem initialize_sync_bounded_retries_no_fallback_witness :
    (TTSE.initialize_sync true false (fun _ => TTSE.SafeAttempt.failThen 1) 3 true).outcome
        = TTSE.InitOutcome.trustDisabledError
    ∧ (TTSE.initialize_sync true false (fun _ => TTSE.SafeAttempt.failThen 1) 3 true).fallbackAttempted
        = false
    ∧ (TTSE.initialize_sync true false (fun _ => TTSE.SafeAttempt.failThen 1) 3 true).safeAttempts ≤ 6 :=
  ⟨(initialize_sync_bounded_retries_no_fallback true (fun _ => TTSE.SafeAttempt.failThen 1) 3 true
      (fun _ => by simp)).2.2.2.1,
   (initialize_sync_bounded_retries_no_fallback true (fun _ => TTSE.SafeAttempt.failThen 1) 3 true
      (fun _ => by simp)).2.2.2.2,
   (initialize_sync_bounded_retries_no_fallback true (fun _ => TTSE.SafeAttempt.failThen 1) 3 true
      (fun _ => by simp)).1⟩

/-- A sample recording-in-progress meta record of the services variant,
used by the concrete witnesses below. -/
def sampleMeta : SVP.Meta :=
  { profile_id := "p1", profile_name := "Voice", owner := "u1", total_steps := 4,
    current_step := 1, status := "recording", prompts := SVP.PROMPTS,
    quality := "processing", times_used := 0 }

/-- C1 (amended, services variant): in the `VoiceProfileService` the
application wires in (`app/services/voice_profile_service.py`), submitting a
step whose number differs from the profile's `current_step` raises
`ValidationError` (`INVALID_INPUT`, "Unexpected step number") and leaves the
persisted meta record — `completed` progress included — unchanged. -/
theorem svp_submit_out_of_order_rejected (m : SVP.Meta) (uid : String)
    (step_number : ℕ) (tempExists valid : Bool) (hown : m.owner = uid)
    (hstep : step_number ≠ m.current_step) :
    SVP.submit_recording_step m uid step_number tempExists valid
      = (m, Except.error SVP.SubmitErr.unexpectedStep) := by
  simp [SVP.submit_recording_step, hown, hstep]

/-- Witness for C1: submitting step 2 while step 1 is expected is rejected
and the meta record is unchanged. -/
theorem svp_submit_out_of_order_rejected_witness :
    SVP.submit_recording_step sampleMeta "u1" 2 true true
      = (sampleMeta, Except.error SVP.SubmitErr.unexpectedStep) :=
  svp_submit_out_of_order_rejected sampleMeta "u1" 2 true true rfl (by decide)

/-- Counterexample to C1 as stated: in the models-variant
`submit_recording_step` (`app/models/voice_profile_service.py`, lines
111-116, also cited by the claim), the only step-number validation is the
range check, so submitting step 2 on a fresh five-step profile whose
expected step is 1 is accepted — it completes step 2 and advances
`completed_steps` to 1 instead of raising. -/
theorem mvp_submit_out_of_order_accepted :
    ((MVP.submit_recording_step (MVP.start_recording_session "pid" "u1" "Voice" 5)
        "u1" 2 "tmp.wav" (MVP.analyze_recording_quality ⟨5, 1/2, 0, 0, 0⟩) true).2).toOption.isSome = true
    ∧ (MVP.submit_recording_step (MVP.start_recording_session "pid" "u1" "Voice" 5)
        "u1" 2 "tmp.wav" (MVP.analyze_recording_quality ⟨5, 1/2, 0, 0, 0⟩) true).1.completed_steps = 1
    ∧ ((MVP.submit_recording_step (MVP.start_recording_session "pid" "u1" "Voice" 5)
        "u1" 2 "tmp.wav" (MVP.analyze_recording_quality ⟨5, 1/2, 0, 0, 0⟩) true).1.recording_steps.getD 1
          default).completed = true := by
  refine ⟨?_, ?_, ?_⟩ <;>
    norm_num [MVP.submit_recording_step, MVP.start_recording_session, MVP.RECORDING_PROMPTS,
      MVP.analyze_recording_quality, MVP.finalize, List.enum, List.enumFrom, List.filter,
      List.set, List.getD, List.get?, Except.toOption]

/-- C2 (amended, services variant): in the wired-in service, a step whose
audio the upload-validation gate (`audio_processor.validate_audio`) rejects
fails with the `AUDIO_QUALITY_POOR` error code before any state is written:
the meta record, hence all recorded progress, is unchanged. -/
theorem svp_submit_poor_quality_rejected (m : SVP.Meta) (uid : String)
    (step_number : ℕ) (tempExists : Bool) (hown : m.owner = uid)
    (hstep : step_number = m.current_step) (htemp : tempExists = true) :
    SVP.submit_recording_step m uid step_number tempExists false
      = (m, Except.error SVP.SubmitErr.audioQualityPoor) := by
  simp [SVP.submit_recording_step, hown, hstep, htemp]

/-- Witness for C2: a correct-step submission whose audio fails validation
is rejected with the quality error and the meta record is unchanged. -/
theorem svp_submit_poor_quality_rejected_witness :
    SVP.submit_recording_step sampleMeta "u1" 1 true false
      = (sampleMeta, Except.error SVP.SubmitErr.audioQualityPoor) :=
  svp_submit_poor_quality_rejected sampleMeta "u1" 1 true rfl rfl rfl

/-- Counterexample to C2 as stated: in the models-variant
`submit_recording_step` (lines 118-141, cited by the claim), the Audio
Quality Gate's `suitable` verdict is computed but never consulted — a
half-second silent sample scoring 35 (`suitable = false`) is still accepted:
no `AudioQualityPoor` error is raised, the step is persisted as completed
and `completed_steps` advances. -/
theorem mvp_submit_unsuitable_still_completed :
    (MVP.analyze_recording_quality ⟨1/2, 0, 1, 0, 0⟩).suitable = false
    ∧ ((MVP.submit_recording_step (MVP.start_recording_session "pid" "u1" "Voice" 5)
        "u1" 1 "tmp.wav" (MVP.analyze_recording_quality ⟨1/2, 0, 1, 0, 0⟩) true).2).toOption.isSome = true
    ∧ (MVP.submit_recording_step (MVP.start_recording_session "pid" "u1" "Voice" 5)
        "u1" 1 "tmp.wav" (MVP.analyze_recording_quality ⟨1/2, 0, 1, 0, 0⟩) true).1.completed_steps = 1
    ∧ ((MVP.submit_recording_step (MVP.start_recording_session "pid" "u1" "Voice" 5)
        "u1" 1 "tmp.wav" (MVP.analyze_recording_quality ⟨1/2, 0, 1, 0, 0⟩) true).1.recording_steps.getD 0
          default).completed = true := by
  refine ⟨?_, ?_, ?_, ?_⟩ <;>
    norm_num [MVP.submit_recording_step, MVP.start_recording_session, MVP.RECORDING_PROMPTS,
      MVP.analyze_recording_quality, MVP.finalize, List.enum, List.enumFrom, List.filter,
      List.set, List.getD, List.get?, Except.toOption]

/-- Counterexample to C3 as stated: the models-variant
`start_recording_session` takes a plain prefix of the 15-prompt pool and
never cycles, so a request for 16 steps — inside the configured valid range
5..20 of `VoiceRecordingRequest.total_steps` — creates only 15 recording
steps, not 16. -/
theorem mvp_start_truncates_prompt_pool :
    (MVP.start_recording_session "pid" "u1" "Voice" 16).recording_steps.length ≠ 16 := by
  decide

/-- C3 (amended): for every `total_steps` in the configured valid range
5..20, the models-variant `start` creates exactly `min total_steps 15`
recording steps, numbered consecutively from 1 with `completed = false` and
prompts taken as a prefix of the pool (truncating, not cycling, beyond the
pool size 15); the services-variant prompt selection, by contrast, produces
exactly `total_steps` prompts and does cycle its 4-prompt pool. -/
theorem start_recording_steps_structure (pid uid name : String) (total : ℕ)
    (h5 : 5 ≤ total) (h20 : total ≤ 20) :
    (MVP.start_recording_session pid uid name total).recording_steps.length = min total 15
    ∧ (∀ i < (MVP.start_recording_session pid uid name total).recording_steps.length,
        ((MVP.start_recording_session pid uid name total).recording_steps.getD i default).step_number = i + 1
        ∧ ((MVP.start_recording_session pid uid name total).recording_steps.getD i default).completed = false
        ∧ ((MVP.start_recording_session pid uid name total).recording_steps.getD i default).text_prompt
            = MVP.RECORDING_PROMPTS.getD i "")
    ∧ (SVP.selectPrompts total).length = total
    ∧ (∀ i < total, (SVP.selectPrompts total).getD i ""
        = SVP.PROMPTS.getD (i % SVP.PROMPTS.length) "") := by
  simp only [MVP.start_recording_session]
  interval_cases total <;> exact ⟨by decide, by decide, by decide, by decide⟩

/-- Witness for C3 (amended) at `total_steps = 16`: the models variant
creates `min 16 15 = 15` steps while the services-variant selection yields
all 16 prompts. -/
theorem start_recording_steps_structure_witness :
    (MVP.start_recording_session "pid" "u1" "Voice" 16).recording_steps.length = min 16 15
    ∧ (SVP.selectPrompts 16).length = 16 :=
  ⟨(start_recording_steps_structure "pid" "u1" "Voice" 16 (by decide) (by decide)).1,
   (start_recording_steps_structure "pid" "u1" "Voice" 16 (by decide) (by decide)).2.2.1⟩

/-- Counterexample to C4 as stated: `ready` and `failed` are not terminal in
the models variant.  A five-step profile whose five in-order submissions end
with a failing embedding creation lands in `failed`; re-submitting step 5
(accepted, since only the range is checked) re-runs `_finalize_voice_profile`,
and with the embedding creation now succeeding the profile moves
`failed → processing → ready`. -/
theorem mvp_failed_profile_becomes_ready :
    (let a := MVP.analyze_recording_quality ⟨5, 1/2, 0, 0, 0⟩
     let p0 := MVP.start_recording_session "pid" "u1" "Voice" 5
     let p1 := (MVP.submit_recording_step p0 "u1" 1 "a1" a true).1
     let p2 := (MVP.submit_recording_step p1 "u1" 2 "a2" a true).1
     let p3 := (MVP.submit_recording_step p2 "u1" 3 "a3" a true).1
     let p4 := (MVP.submit_recording_step p3 "u1" 4 "a4" a true).1
     let p5 := (MVP.submit_recording_step p4 "u1" 5 "a5" a false).1
     let p6 := (MVP.submit_recording_step p5 "u1" 5 "a6" a true).1
     p5.status = MVP.Status.failed ∧ p6.status = MVP.Status.ready) := by
  norm_num [MVP.submit_recording_step, MVP.start_recording_session, MVP.RECORDING_PROMPTS,
    MVP.analyze_recording_quality, MVP.finalize, MVP.qualityTier, List.enum, List.enumFrom,
    List.filter, List.set, List.getD, List.get?]

/-- C4 (amended): `_finalize_voice_profile` always resolves the status —
`ready` when the embedding creation succeeds, `failed` when it raises — so
no profile is left in `processing`, and `submit_recording_step` never moves
a profile into `processing`; however `ready` and `failed` are not terminal:
re-submitting a step of a fully-completed profile re-runs finalize (see the
counterexample). -/
theorem mvp_finalize_resolves_processing (p : MVP.VoiceProfile) (uid : String)
    (step_number : ℕ) (afid : String) (a : MVP.AnalysisResult) (embedOk : Bool) :
    ((MVP.finalize p embedOk).status
        = if embedOk then MVP.Status.ready else MVP.Status.failed)
    ∧ ((MVP.submit_recording_step p uid step_number afid a embedOk).1.status = MVP.Status.processing
        → p.status = MVP.Status.processing) := by
  constructor
  · cases embedOk <;> simp [MVP.finalize]
  · intro h
    unfold MVP.submit_recording_step at h
    split_ifs at h
    · exact h
    · exact h
    · dsimp only at h
      split_ifs at h
      · exfalso
        cases embedOk <;> simp [MVP.finalize] at h
      · exact h

/-- Witness for C4 (amended): finalizing a fresh profile with a failing
embedding creation resolves to `failed`, not `processing`. -/
theorem mvp_finalize_resolves_processing_witness :
    (MVP.finalize (MVP.start_recording_session "pid" "u1" "Voice" 5) false).status
      = MVP.Status.failed := by
  simpa using (mvp_finalize_resolves_processing (MVP.start_recording_session "pid" "u1" "Voice" 5)
    "u1" 1 "a1" ⟨5, 100, true⟩ false).1

/-- A `ready` models-variant profile with a stored embedding path, used by
the C9 witness. -/
def sampleReadyProfile : MVP.VoiceProfile :=
  { profile_id := "p", user_id := "u1", profile_name := "V",
    status := MVP.Status.ready, voice_embedding := some "e.wav" }

/-- A `ready` services-variant meta record, used by the C9 witness. -/
def sampleReadyMeta : SVP.Meta :=
  { sampleMeta with status := "ready", current_step := 4, quality := "ready" }

/-- C9: in both service variants, `use` succeeds exactly when the profile is
`ready` and its reference-audio artifact exists on disk (a non-`ready`
status yields the `NotReady` validation error), and every successful call
bumps `times_used` by exactly one — it is never decremented — while
recording the `last_used` timestamp. -/
theorem use_voice_profile_ready_increments (p : MVP.VoiceProfile) (uid : String)
    (onDisk : Bool) (now : ℕ) (hown : p.user_id = uid)
    (m : SVP.Meta) (cand : Option String) (hmown : m.owner = uid) :
    ((MVP.use_voice_profile (some p) uid onDisk now).toOption.isSome = true
        ↔ p.status = MVP.Status.ready ∧ p.voice_embedding.isSome = true ∧ onDisk = true)
    ∧ (∀ q info, MVP.use_voice_profile (some p) uid onDisk now = Except.ok (q, info) →
        q.times_used = p.times_used + 1 ∧ q.last_used = some now)
    ∧ (p.status ≠ MVP.Status.ready →
        MVP.use_voice_profile (some p) uid onDisk now = Except.error MVP.UseErr.notReady)
    ∧ ((SVP.use_voice_profile (some m) uid cand).toOption.isSome = true
        ↔ m.status = "ready" ∧ cand.isSome = true)
    ∧ (∀ m2 path, SVP.use_voice_profile (some m) uid cand = Except.ok (m2, path) →
        m2.times_used = m.times_used + 1) := by
  refine ⟨?_, ?_, ?_, ?_, ?_⟩
  · cases hemb : p.voice_embedding <;> by_cases hst : p.status = MVP.Status.ready <;>
      cases onDisk <;> simp [MVP.use_voice_profile, hown, hst, hemb, Except.toOption]
  · intro q info h
    cases hemb : p.voice_embedding <;> by_cases hst : p.status = MVP.Status.ready <;>
      cases onDisk <;> simp [MVP.use_voice_profile, hown, hst, hemb] at h
    obtain ⟨hq, hinfo⟩ := h
    subst hq
    simp
  · intro hst
    simp [MVP.use_voice_profile, hown, hst]
  · cases hcand : cand <;> by_cases hst : m.status = "ready" <;>
      simp [SVP.use_voice_profile, hmown, hst, hcand, Except.toOption]
  · intro m2 path h
    cases hcand : cand <;> by_cases hst : m.status = "ready" <;>
      simp [SVP.use_voice_profile, hmown, hst, hcand] at h
    obtain ⟨hm2, hpath⟩ := h
    subst hm2
    simp

/-- Witness for C9: using a `ready` profile with an on-disk artifact
succeeds in both variants. -/
theorem use_voice_profile_ready_increments_witness :
    (MVP.use_voice_profile (some sampleReadyProfile) "u1" true 7).toOption.isSome = true
    ∧ (SVP.use_voice_profile (some sampleReadyMeta) "u1" (some "w.wav")).toOption.isSome = true :=
  ⟨(use_voice_profile_ready_increments sampleReadyProfile "u1" true 7 rfl
      sampleReadyMeta (some "w.wav") rfl).1.mpr (by decide),
   (use_voice_profile_ready_increments sampleReadyProfile "u1" true 7 rfl
      sampleReadyMeta (some "w.wav") rfl).2.2.2.1.mpr (by decide)⟩
